import Mathlib

/-!
Verification model of the live voice session component (`LiveInterface`,
`src/unnamed/part_004`): playback scheduling of inbound audio frames,
interruption flush, the session lifecycle state machine
(start / stop / transport callbacks), and the input-volume visualizer.

Times are rationals measured in seconds on the output device's clock
(`outputCtx.currentTime`); the 150 ms safety buffer is `3/20`.
The source keeps the playback cursor in `nextStartTimeRef`, initialized
to `0`, and uses `0` as the "unset" value (flush resets it to `0`).
-/

/-- One scheduled output buffer (an `AudioBufferSourceNode` that was
`start`ed): its absolute start time on the output device's timeline and
its duration, in seconds. Membership in `PlaybackState.sources` models
membership in `sourcesRef.current`. -/
structure ScheduledSource where
  start : ℚ
  duration : ℚ
deriving DecidableEq, Repr

/-- The playback-scheduling state of the session: `nextStartTimeRef.current`
and `sourcesRef.current`. The code represents the unset cursor as `0`. -/
structure PlaybackState where
  nextStartTime : ℚ
  sources : List ScheduledSource
deriving DecidableEq, Repr

/-- The fixed safety buffer added after an underrun: 0.15 s (150 ms),
from `nextStartTimeRef.current = now + 0.15` in `onmessage`. -/
def safetyMargin : ℚ := 3 / 20

/-- Scheduling of one decoded inbound chunk, from `onmessage`
(part_004 lines 113–135): if the cursor is in the past
(`nextStartTimeRef.current < now`) it is reset to `now + 0.15`; the
buffer is started at the cursor and the cursor advances by the buffer's
duration; the source node is added to `sourcesRef`. Returns the new
state together with the chosen start time. -/
def scheduleChunk (now d : ℚ) (s : PlaybackState) : PlaybackState × ℚ :=
  let cursor := if s.nextStartTime < now then now + safetyMargin else s.nextStartTime
  (⟨cursor + d, s.sources ++ [⟨cursor, d⟩]⟩, cursor)

/-- Handling of an `interrupted` server event, from `onmessage`
(part_004 lines 153–161): every node in `sourcesRef` is stopped, the set
is cleared, and the cursor is reset to `0` (unset). Returns the new
state together with the list of sources that were stopped. -/
def handleInterrupted (s : PlaybackState) : PlaybackState × List ScheduledSource :=
  (⟨0, []⟩, s.sources)

/-- A decoded inbound frame as the scheduler sees it: the device time at
which it arrives and its duration. -/
structure Frame where
  arrival : ℚ
  duration : ℚ
deriving DecidableEq, Repr

/-- Scheduling of a whole sequence of decoded frames, each handled by
`scheduleChunk` at its arrival time; returns the final state and the
list of chosen start times. -/
def scheduleSeq : PlaybackState → List Frame → PlaybackState × List ℚ
  | s, [] => (s, [])
  | s, f :: rest =>
    let p := scheduleChunk f.arrival f.duration s
    let q := scheduleSeq p.1 rest
    (q.1, p.2 :: q.2)

/-- Back-to-back delivery relative to a cursor value `c`: each frame
arrives no later than the cursor as it stands when the frame is handled,
so the timeline never underruns within the sequence. -/
def onTime : ℚ → List Frame → Prop
  | _, [] => True
  | c, f :: rest => f.arrival ≤ c ∧ onTime (c + f.duration) rest

/-- Gapless start times: in a list of (start, duration) pairs, each
start equals the previous start plus the previous duration. -/
def contiguous : List (ℚ × ℚ) → Prop
  | [] => True
  | [_] => True
  | (s1, d1) :: (s2, d2) :: rest => s2 = s1 + d1 ∧ contiguous ((s2, d2) :: rest)

/-- The gapless start-time sequence beginning at `c`: each frame starts
where the previous one ended. -/
def startsFrom : ℚ → List Frame → List ℚ
  | _, [] => []
  | c, f :: rest => c :: startsFrom (c + f.duration) rest

/-- Reachable (playback state, device time) pairs of one session: the
state starts with the cursor unset and no sources, operations
(`scheduleChunk` on an arriving chunk, `handleInterrupted` on an
interruption) run at non-decreasing device times, and device time may
pass with no operation. -/
inductive Reach : PlaybackState → ℚ → Prop
  | init (t : ℚ) : 0 ≤ t → Reach ⟨0, []⟩ t
  | schedule {s : PlaybackState} {t : ℚ} (u d : ℚ) :
      Reach s t → t ≤ u → 0 ≤ d → Reach (scheduleChunk u d s).1 u
  | flush {s : PlaybackState} {t : ℚ} (u : ℚ) :
      Reach s t → t ≤ u → Reach (handleInterrupted s).1 u
  | tick {s : PlaybackState} {t : ℚ} (u : ℚ) :
      Reach s t → t ≤ u → Reach s u

/-- The session controller's top-level status, from the
`useState<'disconnected' | 'connecting' | 'connected' | 'error'>`. -/
inductive Status
  | disconnected
  | connecting
  | connected
  | error
deriving DecidableEq, Repr

/-- Lifecycle of an externally held resource (an `AudioContext`, or the
transport connection): never created, currently open, or closed. -/
inductive CtxState
  | absent
  | opened
  | closed
deriving DecidableEq, Repr

/-- `ref.current?.close()`: optional chaining is a no-op on a never-set
ref; otherwise the context ends up closed. (Calling `close()` on an
already-closed `AudioContext` rejects its returned promise, which the
code neither awaits nor handles, so no error is raised to the caller.) -/
def closeCtx : CtxState → CtxState
  | .absent => .absent
  | _ => .closed

/-- The component state of `LiveInterface`: the React state values
(`isActive`, `status`, `errorMsg`, `volume`, `isModelSpeaking`), the
refs (`inputAudioContextRef`, `audioContextRef` for the output context,
`sessionRef` as a flag for whether the session promise is held, the
transport connection's lifecycle, the playback refs grouped in
`playback`) — and the microphone `MediaStream` acquired by
`getUserMedia` (part_004 line 56). The stream is a local constant of
`startSession`, held alive by the closures wired to it; `micStream`
tracks whether its capture tracks are live (`opened`) or stopped. -/
structure LiveState where
  isActive : Bool
  status : Status
  errorMsg : String
  volume : ℚ
  isModelSpeaking : Bool
  inputCtx : CtxState
  outputCtx : CtxState
  micStream : CtxState
  transport : CtxState
  sessionRef : Bool
  playback : PlaybackState
deriving DecidableEq, Repr

/-- The freshly mounted component: everything unset. -/
def initialState : LiveState :=
  ⟨false, .disconnected, "", 0, false, .absent, .absent, .absent, .absent, false, ⟨0, []⟩⟩

/-- The environment a `startSession` call runs against: whether
`process.env.API_KEY` is set, whether `getUserMedia` grants the
microphone, and the `message` of the error it rejects with when it
denies. -/
structure Env where
  hasApiKey : Bool
  micGranted : Bool
  micError : String
deriving DecidableEq, Repr

/-- `stopVisualizer` (part_004 lines 241–248): cancels the animation
frame, zeroes the volume, clears the model-speaking flag. -/
def stopVisualizer (s : LiveState) : LiveState :=
  { s with volume := 0, isModelSpeaking := false }

/-- `startSession` (part_004 lines 27–210), up to the point where the
call returns. Missing API key: only the error message is set, before
any status change or resource acquisition. Otherwise the status becomes
`connecting`, both audio contexts are created (the output context
before the microphone is requested), and the playback cursor is reset.
If `getUserMedia` denies, the `catch` block sets status `error`, sets
`err.message || "Failed to start live session"` and stops the
visualizer — without closing either context. If it grants, the
microphone stream is acquired (its tracks are now live), the
connection is initiated and the session promise stored; `connected` is
only set later by the `onopen` callback. -/
def startSession (env : Env) (s : LiveState) : LiveState :=
  if !env.hasApiKey then
    { s with errorMsg := "API Key missing" }
  else
    let s1 : LiveState :=
      { s with status := .connecting, errorMsg := "", isModelSpeaking := false,
               inputCtx := .opened, outputCtx := .opened,
               playback := { s.playback with nextStartTime := 0 } }
    if env.micGranted then
      { s1 with micStream := .opened, sessionRef := true }
    else
      stopVisualizer
        { s1 with status := .error,
                  errorMsg := if env.micError = "" then "Failed to start live session"
                              else env.micError }

/-- The `onopen` callback (part_004 lines 67–100): status `connected`,
`isActive` set, microphone/visualizer wiring installed, the transport
connection now open. -/
def handleOpen (s : LiveState) : LiveState :=
  { s with status := .connected, isActive := true, transport := .opened }

/-- The `onclose` callback (part_004 lines 168–175): its
`if (isActive)` guard reads not the current state but the `isActive`
binding captured when the callback closure was created inside
`startSession` (a `useState` value, not a ref). Only when that captured
value is true does it set status `disconnected` and clear `isActive`;
the visualizer is stopped either way. -/
def handleClose (captured : Bool) (s : LiveState) : LiveState :=
  stopVisualizer
    (if captured then { s with status := .disconnected, isActive := false } else s)

/-- The `isActive` value the `startSession` closures capture. The
button dispatches `stopSession` when `isActive` is true and
`startSession` otherwise (part_004 line 327), and nothing else invokes
`startSession`, so `startSession` — and with it the creation of the
`onclose` closure — only ever runs from a render in which `isActive`
is `false`. The captured value is therefore always `false`: the
`if (isActive)` guard in `onclose` never fires. -/
def capturedIsActive : Bool := false

/-- The `onerror` callback (part_004 lines 176–182): status `error`,
a fixed message, `isActive` cleared, visualizer stopped. Nothing else:
the audio contexts, the session promise and the transport connection
are left as they were. -/
def handleError (s : LiveState) : LiveState :=
  stopVisualizer
    { s with status := .error, errorMsg := "Connection interrupted. Reconnecting...",
             isActive := false }

/-- `stopSession` (part_004 lines 250–275): stop the visualizer,
disconnect the processing nodes (inside try/catch), close both audio
contexts via optional chaining, close the session (hence the transport)
if the ref is held, then reset `isActive`, `status`, `sessionRef` and
clear `sourcesRef`. The playback cursor is not touched — and neither is
the microphone stream: it is a local of `startSession` that
`stopSession` cannot reach, no ref to it is ever stored, and no
`getTracks()` call appears anywhere in the file, so its capture tracks
are never stopped. -/
def stopSession (s : LiveState) : LiveState :=
  let s1 := stopVisualizer s
  { s1 with inputCtx := closeCtx s1.inputCtx,
            outputCtx := closeCtx s1.outputCtx,
            transport := if s1.sessionRef then .closed else s1.transport,
            isActive := false,
            status := .disconnected,
            sessionRef := false,
            playback := { s1.playback with sources := [] } }

/-- Modelled from the spec: `decodeAudioData` lives in
`services/audioUtils`, which is absent from the sources; §4.3 says it
raises `AudioDecodeError` on malformed input. The outcome of decoding
an inbound payload is therefore either the decoded buffer (represented
by its duration) or a failure (`none`). -/
abbrev DecodeOutcome : Type := Option ℚ

/-- The audio branch of `onmessage` (part_004 lines 105–150): the
payload is decoded inside a `try`; on success the chunk is scheduled by
the cursor logic and `isModelSpeaking` is set; on `AudioDecodeError`
the `catch` only logs, so the state is untouched and the session
continues. -/
def handleAudioChunk (dec : DecodeOutcome) (now : ℚ) (s : LiveState) : LiveState :=
  match dec with
  | none => s
  | some d => { s with playback := (scheduleChunk now d s.playback).1,
                       isModelSpeaking := true }

/-- A session that has been started successfully and whose transport has
opened: the state after `startSession` (key present, microphone
granted) followed by `onopen`. -/
def connectedState : LiveState :=
  handleOpen (startSession ⟨true, true, ""⟩ initialState)

/-- `analyser.frequencyBinCount` with `analyser.fftSize = 256`
(part_004 line 78): 128 frequency bins. -/
def frequencyBinCount : ℕ := 256 / 2

/-- `Math.floor(bufferLength / 2)` (part_004 line 225): the lower half
of the spectrum, the voice-relevant band. -/
def relevantBins : ℕ := frequencyBinCount / 2

/-- One visualizer tick, `updateVolume` (part_004 lines 218–235): sum
the byte energies of the lower half of the bins, average, scale by 2.5
and clamp to [0, 100]. `data i` is `dataArray[i]`. -/
def updateVolume (data : ℕ → ℕ) : ℚ :=
  let sum : ℕ := (Finset.range relevantBins).sum data
  let average : ℚ := (sum : ℚ) / (relevantBins : ℚ)
  min 100 (max 0 (average * (5 / 2)))

/-- When every frame of `fs` arrives no later than the running cursor,
scheduling appends each frame at the cursor: the start times are the
gapless sequence beginning at the initial cursor value. -/
theorem scheduleSeq_onTime (fs : List Frame) : ∀ s : PlaybackState,
    onTime s.nextStartTime fs → (scheduleSeq s fs).2 = startsFrom s.nextStartTime fs := by
  induction fs with
  | nil => intro s _; rfl
  | cons f rest ih =>
    intro s h
    obtain ⟨h1, h2⟩ := h
    have hc : ¬ s.nextStartTime < f.arrival := not_lt.mpr h1
    have hr := ih ⟨s.nextStartTime + f.duration,
                  s.sources ++ [⟨s.nextStartTime, f.duration⟩]⟩ h2
    simp only [scheduleSeq, scheduleChunk, if_neg hc, startsFrom]
    exact congrArg (s.nextStartTime :: ·) hr

/-- The gapless sequence `startsFrom` is contiguous with respect to the
frame durations. -/
theorem contiguous_startsFrom (fs : List Frame) :
    ∀ c : ℚ, contiguous ((startsFrom c fs).zip (fs.map Frame.duration)) := by
  induction fs with
  | nil => intro c; trivial
  | cons f rest ih =>
    intro c
    cases rest with
    | nil => trivial
    | cons g rs => exact ⟨rfl, ih (c + f.duration)⟩

/-- C1: in one session without an interruption event, when the first
frame arrives while the cursor is unset or behind the device clock
(`nextStartTime < arrival`; the code's unset value `0` is behind any
positive clock value), it starts at the arrival time plus the 150 ms
safety margin, and every later back-to-back frame starts exactly where
the previous one ends (`start[i+1] = start[i] + d[i]`); in particular
three 200 ms frames arriving together at `t0 > 0` with the cursor unset
start at `t0 + 150ms`, `t0 + 350ms`, `t0 + 550ms`. -/
theorem claim1_gapless_scheduling (s : PlaybackState) (a1 d1 : ℚ) (rest : List Frame)
    (h1 : s.nextStartTime < a1)
    (h2 : onTime (a1 + safetyMargin + d1) rest) :
    (scheduleSeq s (⟨a1, d1⟩ :: rest)).2.head? = some (a1 + safetyMargin) ∧
    contiguous ((scheduleSeq s (⟨a1, d1⟩ :: rest)).2.zip
                ((⟨a1, d1⟩ :: rest).map Frame.duration)) ∧
    (∀ t0 : ℚ, 0 < t0 →
      (scheduleSeq ⟨0, []⟩ [⟨t0, 1/5⟩, ⟨t0, 1/5⟩, ⟨t0, 1/5⟩]).2 =
        [t0 + 3/20, t0 + 7/20, t0 + 11/20]) := by
  have key : (scheduleSeq s (⟨a1, d1⟩ :: rest)).2 =
      startsFrom (a1 + safetyMargin) (⟨a1, d1⟩ :: rest) := by
    have hr := scheduleSeq_onTime rest
      ⟨a1 + safetyMargin + d1, s.sources ++ [⟨a1 + safetyMargin, d1⟩]⟩ h2
    simp only [scheduleSeq, scheduleChunk, if_pos h1, startsFrom]
    exact congrArg ((a1 + safetyMargin) :: ·) hr
  refine ⟨by rw [key]; rfl, by rw [key]; exact contiguous_startsFrom _ _, ?_⟩
  intro t0 ht0
  have c1 : (⟨0, []⟩ : PlaybackState).nextStartTime < t0 := ht0
  have c2 : ¬ ((t0 + 3/20 + 1/5 : ℚ) < t0) := by linarith
  have c3 : ¬ ((t0 + 3/20 + 1/5 + 1/5 : ℚ) < t0) := by linarith
  simp only [scheduleSeq, scheduleChunk, safetyMargin, if_pos c1, if_neg c2, if_neg c3]
  have e1 : (t0 + 3/20 + 1/5 : ℚ) = t0 + 7/20 := by ring
  have e2 : (t0 + 7/20 + 1/5 : ℚ) = t0 + 11/20 := by ring
  rw [e1, e2]

/-- Witness for C1: concrete instance with two back-to-back frames from
an unset cursor at device time 1, and Scenario A at `t0 = 1`. -/
theorem claim1_gapless_scheduling_witness :
    (scheduleSeq ⟨0, []⟩ [⟨1, 1/5⟩, ⟨1, 1/5⟩]).2.head? = some (1 + safetyMargin) ∧
    contiguous ((scheduleSeq ⟨0, []⟩ [⟨1, 1/5⟩, ⟨1, 1/5⟩]).2.zip
                (([⟨1, 1/5⟩, ⟨1, 1/5⟩] : List Frame).map Frame.duration)) ∧
    (scheduleSeq ⟨0, []⟩ [⟨1, 1/5⟩, ⟨1, 1/5⟩, ⟨1, 1/5⟩]).2 =
      [1 + 3/20, 1 + 7/20, 1 + 11/20] := by
  have h := claim1_gapless_scheduling ⟨0, []⟩ 1 (1/5) [⟨1, 1/5⟩]
    (by norm_num) (by norm_num [onTime, safetyMargin])
  exact ⟨h.1, h.2.1, h.2.2 1 (by norm_num)⟩

/-- C2: after an `interrupted` event is processed, the set of active
sources is empty, the cursor is unset (`0`), exactly the previously
scheduled sources were stopped, and the next chunk arriving at any
positive device time starts at that time plus the 150 ms safety margin,
independent of the pre-interruption cursor; in particular (Scenario B)
a frame arriving at `t0 + 0.42 s` after the flush starts at
`t0 + 0.57 s`. -/
theorem claim2_interruption_flush (s : PlaybackState) :
    (handleInterrupted s).1.sources = [] ∧
    (handleInterrupted s).1.nextStartTime = 0 ∧
    (handleInterrupted s).2 = s.sources ∧
    (∀ now d : ℚ, 0 < now →
      (scheduleChunk now d (handleInterrupted s).1).2 = now + safetyMargin) ∧
    (∀ t0 : ℚ, 0 ≤ t0 →
      (scheduleChunk (t0 + 21/50) (1/5) (handleInterrupted s).1).2 = t0 + 57/100) := by
  refine ⟨rfl, rfl, rfl, ?_, ?_⟩
  · intro now d h
    have hc : (handleInterrupted s).1.nextStartTime < now := h
    simp [scheduleChunk, if_pos hc]
  · intro t0 h
    have hc : (handleInterrupted s).1.nextStartTime < t0 + 21/50 := by
      show (0 : ℚ) < t0 + 21/50
      linarith
    simp only [scheduleChunk, if_pos hc, safetyMargin]
    ring

/-- Witness for C2: flushing a state with one scheduled source, then
scheduling at device time 1, and Scenario B with `t0 = 0`. -/
theorem claim2_interruption_flush_witness :
    (handleInterrupted ⟨2, [⟨1, 1⟩]⟩).1.sources = [] ∧
    (handleInterrupted ⟨2, [⟨1, 1⟩]⟩).1.nextStartTime = 0 ∧
    (handleInterrupted ⟨2, [⟨1, 1⟩]⟩).2 = [⟨1, 1⟩] ∧
    (scheduleChunk 1 (1/2) (handleInterrupted ⟨2, [⟨1, 1⟩]⟩).1).2 = 1 + safetyMargin ∧
    (scheduleChunk (0 + 21/50) (1/5) (handleInterrupted ⟨2, [⟨1, 1⟩]⟩).1).2 =
      0 + 57/100 := by
  have h := claim2_interruption_flush ⟨2, [⟨1, 1⟩]⟩
  exact ⟨h.1, h.2.1, h.2.2.1, h.2.2.2.1 1 (1/2) (by norm_num), h.2.2.2.2 0 le_rfl⟩

/-- Counterexample to C6 as stated: a reachable (state, device time)
pair in which the cursor is set (`≠ 0`) yet strictly behind the device
clock — schedule one 200 ms chunk at device time 1 (cursor becomes
1.35 s) and let the clock advance to 2. "At every point during a
session the cursor is unset or ≥ the device's current time" is false. -/
theorem claim6_counterexample :
    Reach ⟨27/20, [⟨23/20, 1/5⟩]⟩ 2 ∧ ¬ ((27/20 : ℚ) = 0 ∨ (2 : ℚ) ≤ 27/20) := by
  constructor
  · have h0 : Reach ⟨0, []⟩ 1 := Reach.init 1 (by norm_num)
    have h1 : Reach (scheduleChunk 1 (1/5) ⟨0, []⟩).1 1 :=
      Reach.schedule 1 (1/5) h0 le_rfl (by norm_num)
    have he : (scheduleChunk 1 (1/5) ⟨0, []⟩).1 = ⟨27/20, [⟨23/20, 1/5⟩]⟩ := by
      norm_num [scheduleChunk, safetyMargin]
    rw [he] at h1
    exact Reach.tick 2 h1 (by norm_num)
  · norm_num

/-- C6 amended: the operations themselves preserve the invariant at the
device time at which they run — immediately after scheduling a chunk of
nonnegative duration at time `now` the cursor is ≥ `now`, and
immediately after a flush the cursor is unset; only the passage of
device time between operations can leave a set cursor behind the clock
(an underrun), which the next scheduling repairs. -/
theorem claim6_cursor_invariant_at_ops (s : PlaybackState) (now d : ℚ) (hd : 0 ≤ d) :
    now ≤ (scheduleChunk now d s).1.nextStartTime ∧
    (handleInterrupted s).1.nextStartTime = 0 := by
  refine ⟨?_, rfl⟩
  by_cases h : s.nextStartTime < now
  · simp only [scheduleChunk, if_pos h, safetyMargin]
    linarith
  · simp only [scheduleChunk, if_neg h]
    push_neg at h
    linarith

/-- Witness for C6 amended: scheduling a 200 ms chunk at device time 1
from an unset cursor. -/
theorem claim6_cursor_invariant_at_ops_witness :
    (1 : ℚ) ≤ (scheduleChunk 1 (1/5) ⟨0, []⟩).1.nextStartTime ∧
    (handleInterrupted ⟨0, []⟩).1.nextStartTime = 0 :=
  claim6_cursor_invariant_at_ops ⟨0, []⟩ 1 (1/5) (by norm_num)

/-- `closeCtx` never leaves a resource open. -/
theorem closeCtx_ne_opened (c : CtxState) : closeCtx c ≠ CtxState.opened := by
  cases c <;> simp [closeCtx]

/-- Closing twice is the same as closing once. -/
theorem closeCtx_idem (c : CtxState) : closeCtx (closeCtx c) = closeCtx c := by
  cases c <;> rfl

/-- Counterexample to C3 as stated: calling `start()` on the fresh
component with the API key present and the microphone denied ends in
`error` with the permission error surfaced — but the output audio
context was opened (it is created before the microphone is requested,
and the catch block does not close it), contradicting "no output device
was ever opened during that start() call". -/
theorem claim3_counterexample :
    (startSession ⟨true, false, "Permission denied"⟩ initialState).status = Status.error ∧
    (startSession ⟨true, false, "Permission denied"⟩ initialState).errorMsg =
      "Permission denied" ∧
    (startSession ⟨true, false, "Permission denied"⟩ initialState).outputCtx =
      CtxState.opened :=
  ⟨rfl, rfl, rfl⟩

/-- C3 amended: when `start()` is called and the microphone denies
permission (with a nonempty error message), the controller ends in the
`error` state with that message surfaced — but both audio contexts,
including the output one, have been opened by then and remain open. -/
theorem claim3_mic_denied (s : LiveState) (msg : String) (h : msg ≠ "") :
    (startSession ⟨true, false, msg⟩ s).status = Status.error ∧
    (startSession ⟨true, false, msg⟩ s).errorMsg = msg ∧
    (startSession ⟨true, false, msg⟩ s).outputCtx = CtxState.opened ∧
    (startSession ⟨true, false, msg⟩ s).inputCtx = CtxState.opened := by
  simp [startSession, stopVisualizer, h]

/-- Witness for C3 amended: mic denial with message "Permission denied"
on the fresh component. -/
theorem claim3_mic_denied_witness :
    (startSession ⟨true, false, "Permission denied"⟩ initialState).status = Status.error ∧
    (startSession ⟨true, false, "Permission denied"⟩ initialState).errorMsg =
      "Permission denied" ∧
    (startSession ⟨true, false, "Permission denied"⟩ initialState).outputCtx =
      CtxState.opened ∧
    (startSession ⟨true, false, "Permission denied"⟩ initialState).inputCtx =
      CtxState.opened :=
  claim3_mic_denied initialState "Permission denied" (by decide)

/-- C4 evaluated at the failing input: a `transportError` arriving on a
connected session sets the `error` state and the fixed message and
deactivates the session, but releases nothing — both audio contexts,
the held session promise and the transport connection all remain open.
The claimed full teardown does not run. -/
theorem claim4_transport_error_no_teardown :
    (handleError connectedState).status = Status.error ∧
    (handleError connectedState).errorMsg = "Connection interrupted. Reconnecting..." ∧
    (handleError connectedState).isActive = false ∧
    (handleError connectedState).inputCtx = CtxState.opened ∧
    (handleError connectedState).outputCtx = CtxState.opened ∧
    (handleError connectedState).transport = CtxState.opened ∧
    (handleError connectedState).sessionRef = true :=
  ⟨rfl, rfl, rfl, rfl, rfl, rfl, rfl⟩

/-- C5 evaluated at the failing input: `stop()` on a connected session
whose microphone stream was acquired does end in `disconnected` with
both audio contexts and the transport closed, and a second call is a
no-op — but the microphone stream's tracks are still live after one
stop and after two, and in general `stopSession` never changes the
stream's state: the capture device is not released. -/
theorem claim5_stop_leaves_mic_acquired :
    (stopSession connectedState).status = Status.disconnected ∧
    (stopSession connectedState).inputCtx = CtxState.closed ∧
    (stopSession connectedState).outputCtx = CtxState.closed ∧
    (stopSession connectedState).transport = CtxState.closed ∧
    (stopSession connectedState).micStream = CtxState.opened ∧
    stopSession (stopSession connectedState) = stopSession connectedState ∧
    (stopSession (stopSession connectedState)).micStream = CtxState.opened ∧
    (∀ s : LiveState, (stopSession s).micStream = s.micStream) :=
  ⟨rfl, rfl, rfl, rfl, rfl, rfl, rfl, fun _ => rfl⟩

/-- C7 evaluated at the failing input: a `closed` event delivered to
the connected session (which was never locally stopped, `isActive`
still true in the live state) does not transition the controller to
`disconnected` — the status stays `connected`, because the closure's
captured `isActive` is always `false`, so the guard never fires; in
general a close never changes the status at all. -/
theorem claim7_stale_close_guard :
    connectedState.isActive = true ∧
    (handleClose capturedIsActive connectedState).status = Status.connected ∧
    (handleClose capturedIsActive connectedState).status ≠ Status.disconnected ∧
    (∀ s : LiveState, (handleClose capturedIsActive s).status = s.status) :=
  ⟨rfl, rfl, fun h => Status.noConfusion h, fun _ => rfl⟩

/-- C8: an inbound audio chunk whose payload fails to decode is skipped
atomically — the state is completely unchanged (no source added, cursor
untouched, speaking flag and error message untouched) — and a
subsequent well-formed chunk is scheduled exactly as if the malformed
one had never arrived. -/
theorem claim8_decode_error_skips_frame (now t d : ℚ) (s : LiveState) :
    handleAudioChunk none now s = s ∧
    (handleAudioChunk none now s).playback.sources = s.playback.sources ∧
    (handleAudioChunk none now s).playback.nextStartTime = s.playback.nextStartTime ∧
    (handleAudioChunk none now s).isModelSpeaking = s.isModelSpeaking ∧
    (handleAudioChunk none now s).errorMsg = s.errorMsg ∧
    handleAudioChunk (some d) t (handleAudioChunk none now s) =
      handleAudioChunk (some d) t s :=
  ⟨rfl, rfl, rfl, rfl, rfl, rfl⟩

/-- C9: the published visualizer volume lies in [0, 100] for every
possible frequency-energy input, in particular for byte data. -/
theorem claim9_volume_bounded (data : ℕ → ℕ) :
    0 ≤ updateVolume data ∧ updateVolume data ≤ 100 := by
  unfold updateVolume
  exact ⟨le_min (by norm_num) (le_max_left 0 _), min_le_left _ _⟩

/-- C10: when the API key is absent, `start()` returns after setting
only the error message: the status is untouched (so a disconnected
controller stays disconnected and never enters `connecting` or
`error`), and no audio context, microphone stream or transport
connection is opened. -/
theorem claim10_missing_api_key (s : LiveState) (g : Bool) (m : String) :
    startSession ⟨false, g, m⟩ s = { s with errorMsg := "API Key missing" } ∧
    (startSession ⟨false, g, m⟩ s).status = s.status ∧
    (startSession ⟨false, g, m⟩ s).errorMsg = "API Key missing" ∧
    (startSession ⟨false, g, m⟩ s).inputCtx = s.inputCtx ∧
    (startSession ⟨false, g, m⟩ s).outputCtx = s.outputCtx ∧
    (startSession ⟨false, g, m⟩ s).transport = s.transport ∧
    (startSession ⟨false, g, m⟩ s).sessionRef = s.sessionRef ∧
    (startSession ⟨false, g, m⟩ s).playback = s.playback :=
  ⟨rfl, rfl, rfl, rfl, rfl, rfl, rfl, rfl⟩
